import Mathlib

/-!
Verification development for the automated security-incident response
orchestrator of `ch10/Recipe_10_4` (files `incident_workflows.py` and
`incident_response_system.py`).

The Python source is shallowly embedded: dataclasses become structures,
enums become inductives, dict-valued attributes become association lists,
`datetime.datetime.now()` becomes an explicit `now : Nat` argument, and
the heterogeneous `Dict[str, Any]` parameter bags become `PyVal` trees.
Reads of the raw `incident_data` dictionary performed by the workflow
generators (`incident_data.get('affected_systems', [])`,
`indicators.get('c2_ips', [])`, ...) are embedded as typed fields of
`IncidentInput`, one field per key the source reads.
-/

namespace IncidentResponse

/-- Embedding of the `WorkflowStatus` enum of `incident_workflows.py`. -/
inductive WorkflowStatus where
  | pending
  | in_progress
  | completed
  | failed
  | skipped
deriving DecidableEq, Repr

/-- A Python value as it appears in the open `parameters : Dict[str, Any]`
bags of the source: strings, booleans, integers, `None`, lists and dicts. -/
inductive PyVal where
  | str : String → PyVal
  | bool : Bool → PyVal
  | nat : Nat → PyVal
  | pynone : PyVal
  | listv : List PyVal → PyVal
  | dictv : List (String × PyVal) → PyVal
deriving Repr

instance : Inhabited PyVal := ⟨PyVal.pynone⟩

/-- Lift a Python list of strings into a `PyVal`. -/
def PyVal.ofStrList (l : List String) : PyVal :=
  PyVal.listv (l.map PyVal.str)

/-- Lift an optional string (a value that may be Python `None`). -/
def PyVal.ofOptStr : Option String → PyVal
  | Option.none => PyVal.pynone
  | Option.some s => PyVal.str s

/-- Embedding of the `WorkflowStep` dataclass of `incident_workflows.py`.
The dataclass default `prerequisites: List[str] = None` is embedded as the
empty list: the only use of the field in the source is the truthiness test
`if step.prerequisites:`, under which `None` and `[]` behave identically.
`execution_time` is an abstract timestamp (`Nat`). -/
structure WorkflowStep where
  step_id : String
  name : String
  description : String
  action_type : String
  parameters : List (String × PyVal)
  prerequisites : List String := []
  timeout_minutes : Nat := 10
  critical : Bool := false
  status : WorkflowStatus := WorkflowStatus.pending
  execution_time : Option Nat := Option.none
  result : Option String := Option.none
deriving Repr

instance : Inhabited WorkflowStep :=
  ⟨{ step_id := "", name := "", description := "", action_type := "", parameters := [] }⟩

/-- The reads the workflow generators perform on the raw `incident_data`
dictionary, one typed field per `.get` key of the source; a missing key
yields the source's default (`[]` or `None`). -/
structure IncidentInput where
  affected_systems : List String := []
  c2_ips : List String := []
  external_ips : List String := []
  user_account : Option String := Option.none
  source_directories : List String := []
  compliance_implications : List String := []
  compromised_accounts : List String := []
  source_ip : Option String := Option.none
  attack_sources : List String := []
  attack_types : List String := []
  employee_id : Option String := Option.none
  accessed_systems : List String := []
  data_accessed : List String := []

/-- Python truthiness of an optional string (`None` and `""` are falsy). -/
def truthyStr : Option String → Bool
  | Option.none => false
  | Option.some s => !(s == "")

/-- Python truthiness of a list (`[]` is falsy). -/
def truthyList (l : List String) : Bool :=
  !l.isEmpty

/-- `RansomwareWorkflow.generate_workflow` of `incident_workflows.py`:
three containment steps, a three-step investigation chain and a two-step
recovery chain, transcribed field by field. -/
def RansomwareWorkflow.generate_workflow (d : IncidentInput) : List WorkflowStep :=
  [{ step_id := "RANSOM_001",
     name := "Emergency Network Isolation",
     description := "Immediately isolate all affected systems from network",
     action_type := "isolate_systems",
     parameters := [("systems", PyVal.ofStrList d.affected_systems),
                    ("method", PyVal.str "emergency_isolation"),
                    ("preserve_evidence", PyVal.bool true)],
     timeout_minutes := 2, critical := true },
   { step_id := "RANSOM_002",
     name := "Block C2 Communications",
     description := "Block command and control server IPs",
     action_type := "block_ips",
     parameters := [("ip_list", PyVal.ofStrList d.c2_ips),
                    ("rule_type", PyVal.str "emergency_block"),
                    ("apply_to_all_firewalls", PyVal.bool true)],
     timeout_minutes := 5, critical := true },
   { step_id := "RANSOM_003",
     name := "Disable File Shares",
     description := "Temporarily disable network file shares to prevent spread",
     action_type := "disable_services",
     parameters := [("services", PyVal.ofStrList ["SMB", "NFS", "FTP"]),
                    ("scope", PyVal.str "organization_wide")],
     timeout_minutes := 5, critical := true },
   { step_id := "RANSOM_004",
     name := "Collect Memory Dumps",
     description := "Collect memory dumps from infected systems",
     action_type := "collect_evidence",
     parameters := [("systems", PyVal.ofStrList d.affected_systems),
                    ("evidence_type", PyVal.str "memory_dump"),
                    ("encryption", PyVal.bool true)],
     prerequisites := ["RANSOM_001"], timeout_minutes := 30 },
   { step_id := "RANSOM_005",
     name := "Identify Ransomware Variant",
     description := "Analyze samples to identify ransomware family",
     action_type := "malware_analysis",
     parameters := [("sample_locations", PyVal.str "/evidence/samples/"),
                    ("analysis_type", PyVal.str "automated"),
                    ("sandbox_analysis", PyVal.bool true)],
     prerequisites := ["RANSOM_004"], timeout_minutes := 20 },
   { step_id := "RANSOM_006",
     name := "Check for Decryption Tools",
     description := "Search for available decryption tools",
     action_type := "decryption_research",
     parameters := [("ransomware_family", PyVal.str "TBD"),
                    ("check_nomoreransom", PyVal.bool true),
                    ("check_vendor_tools", PyVal.bool true)],
     prerequisites := ["RANSOM_005"], timeout_minutes := 15 },
   { step_id := "RANSOM_007",
     name := "Assess Backup Integrity",
     description := "Verify backup systems are not compromised",
     action_type := "backup_verification",
     parameters := [("backup_systems", PyVal.ofStrList ["primary_backup", "offsite_backup"]),
                    ("integrity_check", PyVal.bool true),
                    ("malware_scan", PyVal.bool true)],
     timeout_minutes := 45 },
   { step_id := "RANSOM_008",
     name := "Begin System Restoration",
     description := "Start restoring systems from clean backups",
     action_type := "system_restore",
     parameters := [("restore_priority", PyVal.ofStrList ["critical_servers", "user_workstations"]),
                    ("verification_required", PyVal.bool true)],
     prerequisites := ["RANSOM_007"], timeout_minutes := 120 }]

/-- `DataExfiltrationWorkflow.generate_workflow`: immediate response,
a conditional account-security step (guarded by the truthiness of
`user_account`), investigation, and a conditional compliance step
(guarded by the truthiness of `compliance_implications`). -/
def DataExfiltrationWorkflow.generate_workflow (d : IncidentInput) : List WorkflowStep :=
  ([{ step_id := "EXFIL_001",
      name := "Block External Destinations",
      description := "Block communication to external exfiltration destinations",
      action_type := "block_ips",
      parameters := [("ip_list", PyVal.ofStrList d.external_ips),
                     ("rule_type", PyVal.str "exfiltration_block"),
                     ("log_attempts", PyVal.bool true)],
      timeout_minutes := 3, critical := true },
    { step_id := "EXFIL_002",
      name := "Isolate Source Systems",
      description := "Isolate systems involved in data exfiltration",
      action_type := "isolate_systems",
      parameters := [("systems", PyVal.ofStrList d.affected_systems),
                     ("method", PyVal.str "network_isolation"),
                     ("maintain_monitoring", PyVal.bool true)],
      timeout_minutes := 5, critical := true }]
   ++ (if truthyStr d.user_account then
        [{ step_id := "EXFIL_003",
           name := "Secure Compromised Account",
           description := "Disable compromised user account and reset credentials",
           action_type := "account_security",
           parameters := [("account", PyVal.ofOptStr d.user_account),
                          ("actions", PyVal.ofStrList ["disable", "reset_password", "revoke_tokens"]),
                          ("force_logout", PyVal.bool true)],
           timeout_minutes := 5, critical := true }]
      else [])
   ++ [{ step_id := "EXFIL_004",
         name := "Analyze Data Access Patterns",
         description := "Review file access logs to determine scope of compromise",
         action_type := "log_analysis",
         parameters := [("log_sources", PyVal.ofStrList ["file_server", "database", "sharepoint"]),
                        ("time_range_hours", PyVal.nat 48),
                        ("focus_user", PyVal.ofOptStr d.user_account)],
         timeout_minutes := 30 },
       { step_id := "EXFIL_005",
         name := "Identify Exfiltrated Data",
         description := "Determine what data was potentially exfiltrated",
         action_type := "data_classification",
         parameters := [("source_directories", PyVal.ofStrList d.source_directories),
                        ("classification_scan", PyVal.bool true),
                        ("privacy_assessment", PyVal.bool true)],
         prerequisites := ["EXFIL_004"], timeout_minutes := 45 },
       { step_id := "EXFIL_006",
         name := "Network Traffic Analysis",
         description := "Analyze network traffic for exfiltration patterns",
         action_type := "network_analysis",
         parameters := [("capture_period_hours", PyVal.nat 24),
                        ("analyze_protocols", PyVal.ofStrList ["HTTPS", "FTP", "SFTP", "DNS"]),
                        ("external_destinations", PyVal.ofStrList d.external_ips)],
         timeout_minutes := 60 }]
   ++ (if truthyList d.compliance_implications then
        [{ step_id := "EXFIL_007",
           name := "Compliance Notification",
           description := "Notify relevant authorities per compliance requirements",
           action_type := "compliance_notification",
           parameters := [("regulations", PyVal.ofStrList d.compliance_implications),
                          ("notification_window_hours", PyVal.nat 72),
                          ("include_data_assessment", PyVal.bool true)],
           prerequisites := ["EXFIL_005"], timeout_minutes := 30, critical := true }]
      else []))

/-- `CredentialCompromiseWorkflow.generate_workflow`: containment,
assessment (one dependency chain), and recovery steps. -/
def CredentialCompromiseWorkflow.generate_workflow (d : IncidentInput) : List WorkflowStep :=
  [{ step_id := "CRED_001",
     name := "Disable Compromised Accounts",
     description := "Immediately disable all compromised user accounts",
     action_type := "disable_accounts",
     parameters := [("accounts", PyVal.ofStrList d.compromised_accounts),
                    ("revoke_sessions", PyVal.bool true),
                    ("revoke_tokens", PyVal.bool true)],
     timeout_minutes := 5, critical := true },
   { step_id := "CRED_002",
     name := "Block Attack Source",
     description := "Block the source IP of the credential attack",
     action_type := "block_ips",
     parameters := [("ip_list",
                     if truthyStr d.source_ip then PyVal.ofStrList [d.source_ip.getD ""]
                     else PyVal.ofStrList []),
                    ("rule_type", PyVal.str "credential_attack_block"),
                    ("duration_hours", PyVal.nat 24)],
     timeout_minutes := 3, critical := true },
   { step_id := "CRED_003",
     name := "Assess Privilege Escalation",
     description := "Check for unauthorized privilege escalations",
     action_type := "privilege_audit",
     parameters := [("accounts", PyVal.ofStrList d.compromised_accounts),
                    ("check_group_memberships", PyVal.bool true),
                    ("check_permissions", PyVal.bool true),
                    ("compare_baseline", PyVal.bool true)],
     timeout_minutes := 20 },
   { step_id := "CRED_004",
     name := "Review Authentication Logs",
     description := "Analyze authentication logs for attack patterns",
     action_type := "log_analysis",
     parameters := [("log_sources", PyVal.ofStrList ["domain_controller", "vpn", "web_applications"]),
                    ("time_range_hours", PyVal.nat 72),
                    ("failed_login_threshold", PyVal.nat 10)],
     timeout_minutes := 30 },
   { step_id := "CRED_005",
     name := "Lateral Movement Detection",
     description := "Check for signs of lateral movement",
     action_type := "lateral_movement_analysis",
     parameters := [("source_systems", PyVal.ofStrList d.affected_systems),
                    ("check_rdp_sessions", PyVal.bool true),
                    ("check_smb_access", PyVal.bool true),
                    ("check_powershell_activity", PyVal.bool true)],
     prerequisites := ["CRED_004"], timeout_minutes := 45 },
   { step_id := "CRED_006",
     name := "Force Password Reset",
     description := "Force password reset for all potentially affected accounts",
     action_type := "password_reset",
     parameters := [("scope",
                     if d.compromised_accounts.length > 5 then PyVal.str "organization_wide"
                     else PyVal.str "targeted"),
                    ("require_mfa_setup", PyVal.bool true),
                    ("minimum_complexity", PyVal.str "high")],
     prerequisites := ["CRED_003"], timeout_minutes := 60 },
   { step_id := "CRED_007",
     name := "Rebuild Compromised Systems",
     description := "Rebuild systems with administrative access",
     action_type := "system_rebuild",
     parameters := [("systems", PyVal.ofStrList d.affected_systems),
                    ("backup_data", PyVal.bool true),
                    ("security_hardening", PyVal.bool true)],
     prerequisites := ["CRED_005"], timeout_minutes := 180 }]

/-- `DDoSWorkflow.generate_workflow`: mitigation, traffic analysis with
one dependency, and service restoration. -/
def DDoSWorkflow.generate_workflow (d : IncidentInput) : List WorkflowStep :=
  [{ step_id := "DDOS_001",
     name := "Activate DDoS Protection",
     description := "Enable DDoS protection services",
     action_type := "ddos_protection",
     parameters := [("protection_level", PyVal.str "maximum"),
                    ("scrubbing_centers", PyVal.bool true),
                    ("rate_limiting", PyVal.bool true)],
     timeout_minutes := 5, critical := true },
   { step_id := "DDOS_002",
     name := "Block Attack Sources",
     description := "Block identified attack source networks",
     action_type := "block_networks",
     parameters := [("networks", PyVal.ofStrList d.attack_sources),
                    ("rule_type", PyVal.str "ddos_block"),
                    ("upstream_filtering", PyVal.bool true)],
     timeout_minutes := 10, critical := true },
   { step_id := "DDOS_003",
     name := "Analyze Attack Patterns",
     description := "Analyze traffic patterns to identify attack vectors",
     action_type := "traffic_analysis",
     parameters := [("attack_types", PyVal.ofStrList d.attack_types),
                    ("pattern_recognition", PyVal.bool true),
                    ("geolocation_analysis", PyVal.bool true)],
     timeout_minutes := 15 },
   { step_id := "DDOS_004",
     name := "Implement Filtering Rules",
     description := "Create specific filtering rules based on attack patterns",
     action_type := "traffic_filtering",
     parameters := [("filter_types", PyVal.ofStrList ["packet_size", "request_rate", "geographic"]),
                    ("whitelist_known_good", PyVal.bool true),
                    ("adaptive_filtering", PyVal.bool true)],
     prerequisites := ["DDOS_003"], timeout_minutes := 20 },
   { step_id := "DDOS_005",
     name := "Scale Infrastructure",
     description := "Scale up infrastructure to handle attack volume",
     action_type := "infrastructure_scaling",
     parameters := [("auto_scaling", PyVal.bool true),
                    ("load_balancing", PyVal.bool true),
                    ("cdn_activation", PyVal.bool true)],
     timeout_minutes := 30 },
   { step_id := "DDOS_006",
     name := "Monitor Service Availability",
     description := "Continuously monitor service availability and performance",
     action_type := "availability_monitoring",
     parameters := [("check_interval_seconds", PyVal.nat 30),
                    ("performance_thresholds",
                     PyVal.dictv [("response_time", PyVal.nat 2000), ("success_rate", PyVal.nat 95)]),
                    ("alert_degradation", PyVal.bool true)],
     timeout_minutes := 60 }]

/-- `InsiderThreatWorkflow.generate_workflow`: monitoring, an
investigation chain, and a coordinated-response chain. -/
def InsiderThreatWorkflow.generate_workflow (d : IncidentInput) : List WorkflowStep :=
  [{ step_id := "INSIDER_001",
     name := "Enable Enhanced Monitoring",
     description := "Enable detailed monitoring of user activities",
     action_type := "user_monitoring",
     parameters := [("employee_id", PyVal.ofOptStr d.employee_id),
                    ("monitor_file_access", PyVal.bool true),
                    ("monitor_network_activity", PyVal.bool true),
                    ("monitor_email", PyVal.bool true),
                    ("discrete_mode", PyVal.bool true)],
     timeout_minutes := 10, critical := true },
   { step_id := "INSIDER_002",
     name := "Review Access Permissions",
     description := "Review user's current access permissions",
     action_type := "permission_audit",
     parameters := [("employee_id", PyVal.ofOptStr d.employee_id),
                    ("systems", PyVal.ofStrList d.accessed_systems),
                    ("check_job_role_alignment", PyVal.bool true),
                    ("historical_access_review", PyVal.bool true)],
     timeout_minutes := 20 },
   { step_id := "INSIDER_003",
     name := "Analyze User Behavior",
     description := "Analyze user behavior patterns for anomalies",
     action_type := "behavior_analysis",
     parameters := [("employee_id", PyVal.ofOptStr d.employee_id),
                    ("time_range_days", PyVal.nat 30),
                    ("compare_peer_group", PyVal.bool true),
                    ("anomaly_detection", PyVal.bool true)],
     timeout_minutes := 45 },
   { step_id := "INSIDER_004",
     name := "Data Loss Assessment",
     description := "Assess potential data loss or misuse",
     action_type := "data_loss_assessment",
     parameters := [("data_types", PyVal.ofStrList d.data_accessed),
                    ("export_detection", PyVal.bool true),
                    ("external_communication_check", PyVal.bool true)],
     prerequisites := ["INSIDER_003"], timeout_minutes := 30 },
   { step_id := "INSIDER_005",
     name := "HR Coordination",
     description := "Coordinate with HR for personnel action",
     action_type := "hr_coordination",
     parameters := [("employee_id", PyVal.ofOptStr d.employee_id),
                    ("recommended_actions", PyVal.ofStrList ["investigation", "access_review"]),
                    ("evidence_package", PyVal.bool true)],
     prerequisites := ["INSIDER_004"], timeout_minutes := 60 },
   { step_id := "INSIDER_006",
     name := "Legal Review",
     description := "Initiate legal review of incident",
     action_type := "legal_review",
     parameters := [("incident_type", PyVal.str "insider_threat"),
                    ("evidence_preservation", PyVal.bool true),
                    ("potential_violations",
                     PyVal.ofStrList ["data_access_policy", "confidentiality_agreement"])],
     prerequisites := ["INSIDER_005"], timeout_minutes := 120 }]

/-- Lookup in a Python dict embedded as an association list
(`m[k]` and `k in m`). -/
def dictGet {α : Type} (m : List (String × α)) (k : String) : Option α :=
  (m.find? (fun p => p.1 == k)).map (fun p => p.2)

/-- Assignment `m[k] = v` on a Python dict embedded as an association
list: replace the binding when the key is present, append it otherwise. -/
def dictSet {α : Type} (m : List (String × α)) (k : String) (v : α) : List (String × α) :=
  if (m.find? (fun p => p.1 == k)).isSome then
    m.map (fun p => if p.1 == k then (k, v) else p)
  else
    m ++ [(k, v)]

/-- State of the `WorkflowEngine` class of `incident_workflows.py`:
the `active_workflows` dict and the `workflow_generators` dict set up in
`__init__`. -/
structure WorkflowEngine where
  active_workflows : List (String × List WorkflowStep)
  workflow_generators : List (String × (IncidentInput → List WorkflowStep))

/-- The generator table assembled in `WorkflowEngine.__init__`. -/
def WorkflowEngine.defaultGenerators : List (String × (IncidentInput → List WorkflowStep)) :=
  [("malware_outbreak", RansomwareWorkflow.generate_workflow),
   ("data_exfiltration", DataExfiltrationWorkflow.generate_workflow),
   ("credential_compromise", CredentialCompromiseWorkflow.generate_workflow),
   ("ddos_attack", DDoSWorkflow.generate_workflow),
   ("insider_threat", InsiderThreatWorkflow.generate_workflow)]

/-- A freshly constructed `WorkflowEngine()`. -/
def WorkflowEngine.init : WorkflowEngine :=
  { active_workflows := [], workflow_generators := WorkflowEngine.defaultGenerators }

/-- `WorkflowEngine.create_workflow`: look the incident type up in the
generator table (raising `ValueError` for unknown types, embedded as
`Except.error`), run the generator, and store the produced steps in
`active_workflows`.  The source performs no other check on the produced
steps. -/
def WorkflowEngine.create_workflow (e : WorkflowEngine) (incident_id incident_type : String)
    (incident_data : IncidentInput) : Except String (WorkflowEngine × List WorkflowStep) :=
  match dictGet e.workflow_generators incident_type with
  | Option.none =>
      Except.error ("No workflow defined for incident type: " ++ incident_type)
  | Option.some gen =>
      let workflow_steps := gen incident_data
      Except.ok
        ({ e with active_workflows := dictSet e.active_workflows incident_id workflow_steps },
         workflow_steps)

/-- The prerequisite test of `WorkflowEngine.get_next_steps`: find the
first step of the workflow carrying the prerequisite id (`next(...)`) and
require it to exist with status `COMPLETED`. -/
def prereqCompleted (workflow : List WorkflowStep) (prereq_id : String) : Bool :=
  match workflow.find? (fun s => s.step_id == prereq_id) with
  | Option.none => false
  | Option.some t => t.status == WorkflowStatus.completed

/-- The loop body of `WorkflowEngine.get_next_steps` on a given workflow:
keep the steps whose status is `PENDING` and whose prerequisites (all of
them; an empty list passes trivially, matching the falsy `if
step.prerequisites:` guard) are completed. -/
def nextStepsOf (workflow : List WorkflowStep) : List WorkflowStep :=
  workflow.filter
    (fun step => step.status == WorkflowStatus.pending
                 && step.prerequisites.all (prereqCompleted workflow))

/-- `WorkflowEngine.get_next_steps`: an unknown incident id yields `[]`. -/
def WorkflowEngine.get_next_steps (e : WorkflowEngine) (incident_id : String) : List WorkflowStep :=
  match dictGet e.active_workflows incident_id with
  | Option.none => []
  | Option.some workflow => nextStepsOf workflow

/-- The in-place mutation performed by `WorkflowEngine.update_step_status`
on the found step: overwrite `status` and `result`, and set
`execution_time` to the current time exactly when the new status is
`COMPLETED` or `FAILED`. -/
def applyStatusUpdate (s : WorkflowStep) (st : WorkflowStatus) (r : Option String)
    (now : Nat) : WorkflowStep :=
  { s with
    status := st,
    result := r,
    execution_time :=
      if st == WorkflowStatus.completed || st == WorkflowStatus.failed then Option.some now
      else s.execution_time }

/-- Apply `applyStatusUpdate` to the first step of the workflow carrying
the given id (the `next(...)` lookup of the source), leaving every other
step untouched. -/
def updateFirstStep (step_id : String) (st : WorkflowStatus) (r : Option String) (now : Nat) :
    List WorkflowStep → List WorkflowStep
  | [] => []
  | s :: rest =>
      if s.step_id == step_id then applyStatusUpdate s st r now :: rest
      else s :: updateFirstStep step_id st r now rest

/-- `WorkflowEngine.update_step_status`: `False` (and no state change)
when the incident id is unknown or no step carries the given id,
otherwise `True` with the first matching step updated in place. -/
def WorkflowEngine.update_step_status (e : WorkflowEngine) (incident_id step_id : String)
    (st : WorkflowStatus) (r : Option String) (now : Nat) : Bool × WorkflowEngine :=
  match dictGet e.active_workflows incident_id with
  | Option.none => (false, e)
  | Option.some workflow =>
      match workflow.find? (fun s => s.step_id == step_id) with
      | Option.none => (false, e)
      | Option.some _ =>
          (true,
           { e with
             active_workflows :=
               dictSet e.active_workflows incident_id (updateFirstStep step_id st r now workflow) })

/-- The workflow held by the engine for an incident (`[]` if absent). -/
def workflowOf (e : WorkflowEngine) (incident_id : String) : List WorkflowStep :=
  (dictGet e.active_workflows incident_id).getD []

/-- The status of the first step of a workflow carrying the given id. -/
def statusOf (workflow : List WorkflowStep) (step_id : String) : Option WorkflowStatus :=
  (workflow.find? (fun s => s.step_id == step_id)).map (fun s => s.status)

/-- One pass of Kahn-style topological sorting: steps all of whose
prerequisites are already emitted move from `remaining` to `done`; the
step set is acyclic exactly when `remaining` empties within `length`
passes.  (The source contains no such check; this definition is the
verification-side witness used to settle the cycle claims.) -/
def topoSortFuel : Nat → List String → List WorkflowStep → Bool
  | 0, _, remaining => remaining.isEmpty
  | Nat.succ n, done_ids, remaining =>
      let ready := remaining.filter (fun s => s.prerequisites.all (fun p => done_ids.contains p))
      if ready.isEmpty then remaining.isEmpty
      else
        topoSortFuel n (done_ids ++ ready.map (fun s => s.step_id))
          (remaining.filter (fun s => !(s.prerequisites.all (fun p => done_ids.contains p))))

/-- A step set admits a topological ordering (is cycle-free). -/
def acyclicSteps (steps : List WorkflowStep) : Bool :=
  topoSortFuel steps.length [] steps

/-- Embedding of the `IncidentType` enum of `incident_response_system.py`. -/
inductive IncidentType where
  | ransomware
  | data_exfiltration
  | credential_compromise
  | insider_threat
  | ddos_attack
  | supply_chain
deriving DecidableEq, Repr

/-- The `.value` string of each `IncidentType` member. -/
def IncidentType.value : IncidentType → String
  | IncidentType.ransomware => "malware_outbreak"
  | IncidentType.data_exfiltration => "data_exfiltration"
  | IncidentType.credential_compromise => "credential_compromise"
  | IncidentType.insider_threat => "insider_threat"
  | IncidentType.ddos_attack => "ddos_attack"
  | IncidentType.supply_chain => "supply_chain_compromise"

/-- Embedding of the `IncidentSeverity` enum. -/
inductive IncidentSeverity where
  | low
  | medium
  | high
  | critical
deriving DecidableEq, Repr

/-- The `.value` string of each `IncidentSeverity` member. -/
def IncidentSeverity.value : IncidentSeverity → String
  | IncidentSeverity.low => "low"
  | IncidentSeverity.medium => "medium"
  | IncidentSeverity.high => "high"
  | IncidentSeverity.critical => "critical"

/-- Does the character list `l` start with `pat`? -/
def charsStartWith : List Char → List Char → Bool
  | _, [] => true
  | [], _ :: _ => false
  | c :: cs, p :: ps => c == p && charsStartWith cs ps

/-- Does `pat` occur contiguously inside `l`? -/
def charsContain (l pat : List Char) : Bool :=
  match l with
  | [] => pat.isEmpty
  | _ :: rest => charsStartWith l pat || charsContain rest pat

/-- The Python substring test `pat in hay`. -/
def strContains (hay pat : String) : Bool :=
  charsContain hay.data pat.data

/-- The two observations `IncidentClassifier._determine_incident_type`
makes of the `indicators` dict: the Python rendering `str(indicators)`
(probed for ransomware file extensions) and the key set (probed with
`key in indicators`). -/
structure RawIndicators where
  render : String
  keys : List String

/-- The ransomware branch condition: one of the marker extensions occurs
in `str(indicators)`. -/
def ransomwareMarkers (ind : RawIndicators) : Bool :=
  strContains ind.render ".locked" || strContains ind.render ".encrypted"
    || strContains ind.render ".crypto"

/-- The data-exfiltration branch condition. -/
def exfiltrationMarkers (ind : RawIndicators) : Bool :=
  ind.keys.contains "data_volume" || ind.keys.contains "external_ips"

/-- The credential-compromise branch condition. -/
def credentialMarkers (ind : RawIndicators) : Bool :=
  ind.keys.contains "compromised_accounts" || ind.keys.contains "privilege_escalation"

/-- The DDoS branch condition. -/
def ddosMarkers (ind : RawIndicators) : Bool :=
  ind.keys.contains "attack_volume" || ind.keys.contains "attack_sources"

/-- The supply-chain branch condition. -/
def supplyChainMarkers (ind : RawIndicators) : Bool :=
  ind.keys.contains "compromised_software" || ind.keys.contains "vendor"

/-- `IncidentClassifier._determine_incident_type`: the if/elif cascade of
the source, with `INSIDER_THREAT` as the residual branch. -/
def determine_incident_type (ind : RawIndicators) : IncidentType :=
  if ransomwareMarkers ind then IncidentType.ransomware
  else if exfiltrationMarkers ind then IncidentType.data_exfiltration
  else if credentialMarkers ind then IncidentType.credential_compromise
  else if ddosMarkers ind then IncidentType.ddos_attack
  else if supplyChainMarkers ind then IncidentType.supply_chain
  else IncidentType.insider_threat

/-- Embedding of the `ResponseAction` enum. -/
inductive ResponseAction where
  | isolate_system
  | block_ip
  | collect_evidence
  | disable_account
  | quarantine_file
  | notify_stakeholders
deriving DecidableEq, Repr

/-- The `.value` string of each `ResponseAction` member. -/
def ResponseAction.value : ResponseAction → String
  | ResponseAction.isolate_system => "isolate_system"
  | ResponseAction.block_ip => "block_ip"
  | ResponseAction.collect_evidence => "collect_evidence"
  | ResponseAction.disable_account => "disable_account"
  | ResponseAction.quarantine_file => "quarantine_file"
  | ResponseAction.notify_stakeholders => "notify_stakeholders"

/-- Embedding of the `ResponseStep` dataclass of
`incident_response_system.py`.  Note that, unlike `WorkflowStep`, it has
no `prerequisites` and no `critical` field. -/
structure ResponseStep where
  action : ResponseAction
  target : String
  parameters : List (String × PyVal)
  status : String := "pending"
  execution_time : Option Nat := Option.none
  result : Option String := Option.none
deriving Repr

/-- The fields of `IncidentData` (the classifier output) that
`_generate_response_plan` reads; the `indicators.get(...)` reads are
embedded as typed fields, as for `IncidentInput`. -/
structure IncidentData where
  incident_id : String
  incident_type : IncidentType
  severity : IncidentSeverity
  affected_systems : List String := []
  c2_ips : List String := []
  external_ips : List String := []
  user_account : Option String := Option.none
  compromised_accounts : List String := []
  source_ip : Option String := Option.none
  attack_sources : List String := []
  description : String := ""
  status : String := "active"

/-- Python `s.replace(a, b)` for single characters (used for the
`ip.replace(".", "_")` rule names). -/
def pyReplaceChar (s : String) (a b : Char) : String :=
  String.mk (s.data.map (fun c => if c == a then b else c))

/-- `IncidentResponseEngine._generate_response_plan`: the per-type step
lists of the if/elif cascade, followed by the unconditional
notify-stakeholders step appended for all incidents. -/
def generate_response_plan (incident : IncidentData) : List ResponseStep :=
  (match incident.incident_type with
   | IncidentType.ransomware =>
       incident.affected_systems.map
         (fun sys => { action := ResponseAction.isolate_system, target := sys,
                       parameters := [("method", PyVal.str "edr_isolation")] })
       ++ incident.c2_ips.map
         (fun ip => { action := ResponseAction.block_ip, target := ip,
                      parameters :=
                        [("rule_name", PyVal.str ("BLOCK_C2_" ++ pyReplaceChar ip '.' '_'))] })
       ++ incident.affected_systems.map
         (fun sys => { action := ResponseAction.collect_evidence, target := sys,
                       parameters :=
                         [("evidence_types",
                           PyVal.ofStrList ["memory_dump", "disk_image"])] })
   | IncidentType.data_exfiltration =>
       incident.external_ips.map
         (fun ip => { action := ResponseAction.block_ip, target := ip,
                      parameters :=
                        [("rule_name", PyVal.str ("BLOCK_EXFIL_" ++ pyReplaceChar ip '.' '_'))] })
       ++ incident.affected_systems.map
         (fun sys => { action := ResponseAction.isolate_system, target := sys,
                       parameters := [("method", PyVal.str "network_isolation")] })
       ++ (match incident.user_account with
           | Option.some acct =>
               if acct == "" then []
               else [{ action := ResponseAction.disable_account, target := acct,
                       parameters := [("domain", PyVal.str "company.local")] }]
           | Option.none => [])
   | IncidentType.credential_compromise =>
       incident.compromised_accounts.map
         (fun acct => { action := ResponseAction.disable_account, target := acct,
                        parameters := [("domain", PyVal.str "company.local")] })
       ++ (match incident.source_ip with
           | Option.some ip =>
               if ip == "" then []
               else [{ action := ResponseAction.block_ip, target := ip,
                       parameters :=
                         [("rule_name",
                           PyVal.str ("BLOCK_ATTACK_" ++ pyReplaceChar ip '.' '_'))] }]
           | Option.none => [])
   | IncidentType.ddos_attack =>
       incident.attack_sources.map
         (fun src => { action := ResponseAction.block_ip, target := src,
                       parameters :=
                         [("rule_name",
                           PyVal.str
                             ("BLOCK_DDOS_"
                               ++ pyReplaceChar (pyReplaceChar src '.' '_') '/' '_'))] })
   | IncidentType.insider_threat => []
   | IncidentType.supply_chain => [])
  ++ [{ action := ResponseAction.notify_stakeholders, target := "security_team",
        parameters := [("incident_id", PyVal.str incident.incident_id),
                       ("severity", PyVal.str incident.severity.value)] }]

/-- A row of the `incidents` table created by `_init_database`. -/
structure IncidentRow where
  incident_id : String
  incident_type : String
  severity : String
  detection_time : Nat
  affected_systems : List String
  description : String
  status : String
deriving Repr

/-- A row of the `response_actions` table: `action_id` is the
`AUTOINCREMENT` primary key; the table declares no uniqueness over
`(incident_id, step)` beyond it. -/
structure ActionRow where
  action_id : Nat
  incident_id : String
  action_type : String
  target : String
  parameters : List (String × PyVal)
  status : String
  execution_time : Option Nat
  result : Option String
deriving Repr

/-- The SQLite database of `IncidentResponseEngine`, with the
autoincrement counter made explicit. -/
structure ResponseDB where
  incidents : List IncidentRow := []
  response_actions : List ActionRow := []
  next_action_id : Nat := 1

/-- `IncidentResponseEngine._store_response_action`: a plain `INSERT`
into `response_actions`, always appending a fresh row under the next
autoincrement id. -/
def storeResponseAction (db : ResponseDB) (incident_id : String) (step : ResponseStep) :
    ResponseDB :=
  { db with
    response_actions :=
      db.response_actions
        ++ [{ action_id := db.next_action_id,
              incident_id := incident_id,
              action_type := step.action.value,
              target := step.target,
              parameters := step.parameters,
              status := step.status,
              execution_time := step.execution_time,
              result := step.result }],
    next_action_id := db.next_action_id + 1 }

/-- `IncidentResponseEngine._execute_response_plan`: all steps are
submitted to the thread pool first, but the results loop
`for future, step in as_completed([(f, s) for f, s in futures])` raises
`TypeError` before its first iteration whenever the plan is non-empty:
`as_completed` starts by building a `set` of its argument and the
`(Future, ResponseStep)` tuples are unhashable, `ResponseStep` being a
plain `eq=True`, non-frozen dataclass.  So for a non-empty plan the
function propagates the exception with no step status ever set and no
row ever stored; only the empty plan's loop body is (vacuously)
completed.  The raised exception is embedded as `Except.error`, the
database and step list reaching the caller unchanged. -/
def executeResponsePlan (db : ResponseDB) (incident_id : String)
    (steps : List ResponseStep) : Except String (ResponseDB × List ResponseStep) :=
  if steps.isEmpty then Except.ok (db, steps)
  else Except.error "TypeError: unhashable type: ResponseStep"

/-- The ransomware scenario of `incident_workflows.main`: two affected
systems and two C2 addresses. -/
def sampleRansomwareData : IncidentInput :=
  { affected_systems := ["10.0.1.150", "10.0.1.175"],
    c2_ips := ["198.51.100.25", "203.0.113.50"] }

/-- The workflow generated for the sample ransomware scenario. -/
def sampleWorkflow : List WorkflowStep :=
  RansomwareWorkflow.generate_workflow sampleRansomwareData

/-- The engine after `create_workflow("INC-001", "malware_outbreak", ...)`
on the sample scenario. -/
def engineAfterCreate : WorkflowEngine :=
  (((WorkflowEngine.init.create_workflow "INC-001" "malware_outbreak"
      sampleRansomwareData).toOption).map Prod.fst).getD WorkflowEngine.init

/-- Modelled from the spec: the repository contains no loop driving a
`WorkflowEngine` workflow to completion (only `_execute_response_plan`
over the prerequisite-free `ResponseStep`s), so the execution-engine
loop of section 4.4 — repeatedly ask the scheduler for ready steps,
record each outcome, loop — is embedded here from the spec's words.
One round computes the ready set with `nextStepsOf` and records every
ready step's outcome (given by the oracle) through `updateFirstStep`,
the list-level core of `update_step_status`. -/
def driverRound (oracle : String → WorkflowStatus) (now : Nat)
    (workflow : List WorkflowStep) : List WorkflowStep :=
  (nextStepsOf workflow).foldl
    (fun wf s => updateFirstStep s.step_id (oracle s.step_id) Option.none now wf) workflow

/-- Modelled from the spec: `n` rounds of the execution-engine loop. -/
def driverRun (oracle : String → WorkflowStatus) (now : Nat) :
    Nat → List WorkflowStep → List WorkflowStep
  | 0, workflow => workflow
  | Nat.succ n, workflow => driverRun oracle now n (driverRound oracle now workflow)

/-- Every step of the workflow is in a terminal status. -/
def allTerminal (workflow : List WorkflowStep) : Bool :=
  workflow.all
    (fun s => s.status == WorkflowStatus.completed || s.status == WorkflowStatus.failed
              || s.status == WorkflowStatus.skipped)

/-- Outcome oracle for the driver in which the critical first isolation
step fails and every other dispatched step succeeds. -/
def failFirstOracle (sid : String) : WorkflowStatus :=
  if sid == "RANSOM_001" then WorkflowStatus.failed else WorkflowStatus.completed

/-- Outcome oracle in which every dispatched step succeeds. -/
def allCompleteOracle (_ : String) : WorkflowStatus :=
  WorkflowStatus.completed

/-- The sample ransomware workflow after two driver rounds under
`failFirstOracle`; all further rounds leave it unchanged. -/
def stalledWorkflow : List WorkflowStep :=
  driverRun failFirstOracle 1 2 sampleWorkflow

/-- A step whose only prerequisite is `cyclicStepB`. -/
def cyclicStepA : WorkflowStep :=
  { step_id := "CYC_A", name := "Cycle member A", description := "",
    action_type := "noop", parameters := [], prerequisites := ["CYC_B"] }

/-- A step whose only prerequisite is `cyclicStepA`. -/
def cyclicStepB : WorkflowStep :=
  { step_id := "CYC_B", name := "Cycle member B", description := "",
    action_type := "noop", parameters := [], prerequisites := ["CYC_A"] }

/-- A generator producing a two-step prerequisite cycle. -/
def cyclicGenerator (_ : IncidentInput) : List WorkflowStep :=
  [cyclicStepA, cyclicStepB]

/-- An engine state whose generator table contains `cyclicGenerator`;
`create_workflow` reads whatever table the state holds. -/
def cyclicEngine : WorkflowEngine :=
  { active_workflows := [], workflow_generators := [("cyclic_demo", cyclicGenerator)] }

/-- The first step of the sample ransomware workflow. -/
def ransomHead : WorkflowStep :=
  (sampleWorkflow.get? 0).getD default

/-- The engine after additionally marking `RANSOM_001` as failed. -/
def engineAfterFail : WorkflowEngine :=
  (engineAfterCreate.update_step_status "INC-001" "RANSOM_001" WorkflowStatus.failed
    (Option.some "isolation failed") 5).2

/-- Result of asking the engine to start `RANSOM_004` while its
prerequisite `RANSOM_001` is still pending. -/
def engineStep4Started : Bool × WorkflowEngine :=
  engineAfterCreate.update_step_status "INC-001" "RANSOM_004" WorkflowStatus.in_progress
    Option.none 2

/-- The sample workflow after `RANSOM_001` completed. -/
def wfAfter001Completed : List WorkflowStep :=
  updateFirstStep "RANSOM_001" WorkflowStatus.completed (Option.some "ok") 3 sampleWorkflow

/-- The `RANSOM_004` step inside `wfAfter001Completed`. -/
def ransom004After : WorkflowStep :=
  (wfAfter001Completed.find? (fun s => s.step_id == "RANSOM_004")).getD default

/-- The engine after `RANSOM_001` reached the terminal status
`completed`. -/
def engineDone001 : WorkflowEngine :=
  (engineAfterCreate.update_step_status "INC-001" "RANSOM_001" WorkflowStatus.completed
    (Option.some "isolated") 3).2

/-- Result of moving the already-completed `RANSOM_001` back to
`pending`. -/
def reopenResult : Bool × WorkflowEngine :=
  engineDone001.update_step_status "INC-001" "RANSOM_001" WorkflowStatus.pending Option.none 4

/-- A concrete isolation response step. -/
def sampleIsolateStep : ResponseStep :=
  { action := ResponseAction.isolate_system, target := "10.0.1.150",
    parameters := [("method", PyVal.str "edr_isolation")] }

/-- A concrete notification response step. -/
def sampleNotifyStep : ResponseStep :=
  { action := ResponseAction.notify_stakeholders, target := "security_team",
    parameters := [("incident_id", PyVal.str "INC-1"), ("severity", PyVal.str "high")] }

/-- A stored incident row with the freshly created status `active`. -/
def sampleIncidentRow : IncidentRow :=
  { incident_id := "INC-1", incident_type := "malware_outbreak", severity := "high",
    detection_time := 0, affected_systems := ["10.0.1.150"],
    description := "ransomware on a workstation", status := "active" }

/-- A database holding the sample incident and no response actions. -/
def sampleDB : ResponseDB :=
  { incidents := [sampleIncidentRow] }

/-- The database after storing `sampleNotifyStep` once. -/
def dbOnce : ResponseDB :=
  storeResponseAction {} "INC-1" sampleNotifyStep

/-- The database after storing the identical step a second time. -/
def dbTwice : ResponseDB :=
  storeResponseAction dbOnce "INC-1" sampleNotifyStep

/-- Replacing the binding of `k` leaves the first `k`-binding equal to
the new value. -/
theorem find?_map_dictSet {α : Type} (k : String) (v : α) :
    ∀ m : List (String × α), (m.find? (fun p => p.1 == k)).isSome = true →
      (m.map (fun p => if p.1 == k then (k, v) else p)).find? (fun p => p.1 == k)
        = Option.some (k, v)
  | [], h => by simp at h
  | a :: m, h => by
      simp only [List.map_cons]
      by_cases hpa : (a.1 == k) = true
      · rw [if_pos hpa]
        exact List.find?_cons_of_pos _ (beq_self_eq_true k)
      · rw [if_neg hpa, List.find?_cons_of_neg (p := fun q : String × α => q.1 == k) _ hpa]
        rw [List.find?_cons_of_neg (p := fun q : String × α => q.1 == k) _ hpa] at h
        exact find?_map_dictSet k v m h

/-- Replacing the binding of `k` leaves lookups at other keys unchanged. -/
theorem find?_map_dictSet_ne {α : Type} (k k2 : String) (v : α) (hkk : (k == k2) = false) :
    ∀ m : List (String × α),
      (m.map (fun p => if p.1 == k then (k, v) else p)).find? (fun p => p.1 == k2)
        = m.find? (fun p => p.1 == k2)
  | [] => rfl
  | a :: m => by
      simp only [List.map_cons]
      by_cases hpa : (a.1 == k) = true
      · have ha2 : ¬(a.1 == k2) = true := by
          have hak : a.1 = k := by rwa [beq_iff_eq] at hpa
          rw [hak]
          simp [hkk]
        rw [if_pos hpa]
        rw [List.find?_cons_of_neg (p := fun q : String × α => q.1 == k2) _
          (show ¬(((k, v) : String × α).1 == k2) = true by simp [hkk])]
        rw [List.find?_cons_of_neg (p := fun q : String × α => q.1 == k2) _ ha2]
        exact find?_map_dictSet_ne k k2 v hkk m
      · rw [if_neg hpa]
        by_cases ha2 : (a.1 == k2) = true
        · rw [List.find?_cons_of_pos (p := fun q : String × α => q.1 == k2) _ ha2,
            List.find?_cons_of_pos (p := fun q : String × α => q.1 == k2) _ ha2]
        · rw [List.find?_cons_of_neg (p := fun q : String × α => q.1 == k2) _ ha2,
            List.find?_cons_of_neg (p := fun q : String × α => q.1 == k2) _ ha2]
          exact find?_map_dictSet_ne k k2 v hkk m

/-- Association-list lemma: after `m[k] = v`, looking up `k` yields `v`. -/
theorem dictGet_dictSet_self {α : Type} (m : List (String × α)) (k : String) (v : α) :
    dictGet (dictSet m k v) k = Option.some v := by
  unfold dictGet dictSet
  by_cases h : (m.find? (fun p => p.1 == k)).isSome = true
  · rw [if_pos h, find?_map_dictSet k v m h]
    rfl
  · rw [if_neg h]
    rw [Option.not_isSome_iff_eq_none] at h
    rw [List.find?_append, h, Option.none_or,
      List.find?_cons_of_pos (p := fun q : String × α => q.1 == k) _
        (show (((k, v) : String × α).1 == k) = true by simp)]
    rfl

/-- Association-list lemma: `m[k] = v` does not change lookups at other
keys. -/
theorem dictGet_dictSet_ne {α : Type} (m : List (String × α)) (k k2 : String) (v : α)
    (hne : k2 ≠ k) : dictGet (dictSet m k v) k2 = dictGet m k2 := by
  have hkk : (k == k2) = false := by
    rw [beq_eq_false_iff_ne]
    exact fun hc => hne hc.symm
  unfold dictGet dictSet
  by_cases h : (m.find? (fun p => p.1 == k)).isSome = true
  · rw [if_pos h, find?_map_dictSet_ne k k2 v hkk m]
  · rw [if_neg h]
    rw [List.find?_append,
      List.find?_cons_of_neg (p := fun q : String × α => q.1 == k2) _
        (show ¬(((k, v) : String × α).1 == k2) = true by simp [hkk]),
      List.find?_nil, Option.or_none]

/-- Updating the first `sid`-step sets its status to the requested value
whenever such a step exists. -/
theorem statusOf_updateFirstStep (sid : String) (st : WorkflowStatus) (r : Option String)
    (now : Nat) :
    ∀ wf : List WorkflowStep, (wf.find? (fun s => s.step_id == sid)).isSome = true →
      statusOf (updateFirstStep sid st r now wf) sid = Option.some st
  | [], h => by simp at h
  | s :: wf, h => by
      by_cases hs : (s.step_id == sid) = true
      · unfold updateFirstStep
        rw [if_pos hs]
        unfold statusOf
        rw [List.find?_cons_of_pos (p := fun q : WorkflowStep => q.step_id == sid) _
          (show ((applyStatusUpdate s st r now).step_id == sid) = true from hs)]
        rfl
      · unfold updateFirstStep
        rw [if_neg hs]
        rw [List.find?_cons_of_neg (p := fun q : WorkflowStep => q.step_id == sid) _ hs] at h
        unfold statusOf
        rw [List.find?_cons_of_neg (p := fun q : WorkflowStep => q.step_id == sid) _ hs]
        exact statusOf_updateFirstStep sid st r now wf h

/-- The update of `update_step_status` written extensionally: the first
step carrying the id is replaced in place and nothing else changes. -/
theorem updateFirstStep_spec (sid : String) (st : WorkflowStatus) (r : Option String)
    (now : Nat) :
    ∀ (wf : List WorkflowStep) (s0 : WorkflowStep),
      wf.find? (fun s => s.step_id == sid) = Option.some s0 →
      ∃ i, wf.get? i = Option.some s0
        ∧ (∀ j sj, j < i → wf.get? j = Option.some sj → (sj.step_id == sid) = false)
        ∧ (s0.step_id == sid) = true
        ∧ updateFirstStep sid st r now wf = wf.set i (applyStatusUpdate s0 st r now)
  | [], s0, h => by simp at h
  | s :: wf, s0, h => by
      by_cases hs : (s.step_id == sid) = true
      · rw [List.find?_cons_of_pos (p := fun q : WorkflowStep => q.step_id == sid) _ hs] at h
        have hss : s = s0 := by injection h
        subst hss
        refine ⟨0, rfl, ?_, hs, ?_⟩
        · intro j sj hj
          exact absurd hj (Nat.not_lt_zero j)
        · unfold updateFirstStep
          rw [if_pos hs]
          rfl
      · rw [List.find?_cons_of_neg (p := fun q : WorkflowStep => q.step_id == sid) _ hs] at h
        obtain ⟨i, hget, hfirst, hid, heq⟩ := updateFirstStep_spec sid st r now wf s0 h
        refine ⟨i + 1, hget, ?_, hid, ?_⟩
        · intro j sj hj hg
          cases j with
          | zero =>
              have hsj : s = sj := by injection hg
              subst hsj
              exact Bool.eq_false_iff.mpr hs
          | succ j => exact hfirst j sj (Nat.lt_of_succ_lt_succ hj) hg
        · unfold updateFirstStep
          rw [if_neg hs, heq]
          rfl

/-- The in-place mutation as a structure update with the conditional
timestamp written propositionally. -/
theorem applyStatusUpdate_eq (s : WorkflowStep) (st : WorkflowStatus) (r : Option String)
    (now : Nat) :
    applyStatusUpdate s st r now
      = { s with
          status := st,
          result := r,
          execution_time :=
            if st = WorkflowStatus.completed ∨ st = WorkflowStatus.failed then Option.some now
            else s.execution_time } := by
  cases st <;> rfl

/-- `prereqCompleted` holds exactly when some step of the workflow
carries the prerequisite id with status `completed`, provided step ids
are unique. -/
theorem prereqCompleted_iff (wf : List WorkflowStep)
    (hids : (wf.map (fun s => s.step_id)).Nodup) (p : String) :
    prereqCompleted wf p = true ↔
      ∃ t ∈ wf, t.step_id = p ∧ t.status = WorkflowStatus.completed := by
  constructor
  · intro h
    unfold prereqCompleted at h
    split at h
    · exact absurd h Bool.false_ne_true
    · rename_i t hf
      have hpt := List.find?_some hf
      exact ⟨t, List.mem_of_find?_eq_some hf,
        by rwa [beq_iff_eq] at hpt,
        by rwa [beq_iff_eq] at h⟩
  · intro ⟨t, htm, hid, hst⟩
    have hsome : (wf.find? (fun s => s.step_id == p)).isSome := by
      rw [List.find?_isSome]
      exact ⟨t, htm, by rw [beq_iff_eq]; exact hid⟩
    obtain ⟨u, hu⟩ := Option.isSome_iff_exists.mp hsome
    have hum : u ∈ wf := List.mem_of_find?_eq_some hu
    have huid : u.step_id = p := by
      have := List.find?_some hu
      rwa [beq_iff_eq] at this
    have hut : u = t :=
      List.inj_on_of_nodup_map hids hum htm (by rw [huid, hid])
    unfold prereqCompleted
    rw [hu, hut]
    rw [beq_iff_eq]
    exact hst

/-- A list with a singleton appended is never empty. -/
theorem isEmpty_append_singleton {α : Type} (a : α) :
    ∀ l : List α, (l ++ [a]).isEmpty = false
  | [] => rfl
  | _ :: _ => rfl

/-- Equation for `update_step_status` at an unknown incident id. -/
theorem update_step_status_no_incident (e : WorkflowEngine) (iid sid : String)
    (st : WorkflowStatus) (r : Option String) (now : Nat)
    (h : dictGet e.active_workflows iid = Option.none) :
    e.update_step_status iid sid st r now = (false, e) := by
  unfold WorkflowEngine.update_step_status
  split
  · rfl
  · rename_i workflow heq
    exact Option.noConfusion (h.symm.trans heq)

/-- Equation for `update_step_status` at a known incident but unknown
step id. -/
theorem update_step_status_no_step (e : WorkflowEngine) (iid sid : String)
    (st : WorkflowStatus) (r : Option String) (now : Nat) (wf : List WorkflowStep)
    (h : dictGet e.active_workflows iid = Option.some wf)
    (hf : wf.find? (fun s => s.step_id == sid) = Option.none) :
    e.update_step_status iid sid st r now = (false, e) := by
  unfold WorkflowEngine.update_step_status
  split
  · rename_i heq
    exact Option.noConfusion (h.symm.trans heq)
  · rename_i workflow heq
    have hw : wf = workflow := Option.some.inj (h.symm.trans heq)
    subst hw
    split
    · rfl
    · rename_i s0 heq2
      exact Option.noConfusion (hf.symm.trans heq2)

/-- Equation for `update_step_status` when incident and step exist. -/
theorem update_step_status_found (e : WorkflowEngine) (iid sid : String)
    (st : WorkflowStatus) (r : Option String) (now : Nat) (wf : List WorkflowStep)
    (s0 : WorkflowStep)
    (h : dictGet e.active_workflows iid = Option.some wf)
    (hf : wf.find? (fun s => s.step_id == sid) = Option.some s0) :
    e.update_step_status iid sid st r now
      = (true,
         { e with
           active_workflows :=
             dictSet e.active_workflows iid (updateFirstStep sid st r now wf) }) := by
  unfold WorkflowEngine.update_step_status
  split
  · rename_i heq
    exact Option.noConfusion (h.symm.trans heq)
  · rename_i workflow heq
    have hw : wf = workflow := Option.some.inj (h.symm.trans heq)
    subst hw
    split
    · rename_i heq2
      exact Option.noConfusion (hf.symm.trans heq2)
    · rfl

/-- C1, counterexample: `create_workflow` performs no cycle detection.
Fed a generator whose two steps name each other as prerequisites, it
returns successfully, instantiates the workflow and stores both steps in
`active_workflows`; the stored step set admits no topological order. -/
theorem c1_create_workflow_accepts_cycle :
    cyclicEngine.create_workflow "INC-CYC" "cyclic_demo" {} =
      Except.ok
        ({ cyclicEngine with active_workflows := [("INC-CYC", [cyclicStepA, cyclicStepB])] },
         [cyclicStepA, cyclicStepB])
  ∧ acyclicSteps [cyclicStepA, cyclicStepB] = false
  ∧ cyclicStepA.prerequisites = ["CYC_B"]
  ∧ cyclicStepB.prerequisites = ["CYC_A"] :=
  ⟨rfl, rfl, rfl, rfl⟩

/-- C1, amended: every workflow produced by one of the five registered
generators is acyclic (so a cycle never arises from the engine's own
generator table), but `create_workflow` itself performs no cycle check:
whenever a generator is registered for the type it succeeds and stores
whatever step set the generator returns. -/
theorem c1_generators_acyclic_creation_unchecked :
    (∀ d, acyclicSteps (RansomwareWorkflow.generate_workflow d) = true)
  ∧ (∀ d, acyclicSteps (DataExfiltrationWorkflow.generate_workflow d) = true)
  ∧ (∀ d, acyclicSteps (CredentialCompromiseWorkflow.generate_workflow d) = true)
  ∧ (∀ d, acyclicSteps (DDoSWorkflow.generate_workflow d) = true)
  ∧ (∀ d, acyclicSteps (InsiderThreatWorkflow.generate_workflow d) = true)
  ∧ ∀ (e : WorkflowEngine) (iid ityp : String) (d : IncidentInput)
      (g : IncidentInput → List WorkflowStep),
      dictGet e.workflow_generators ityp = Option.some g →
      e.create_workflow iid ityp d =
        Except.ok
          ({ e with active_workflows := dictSet e.active_workflows iid (g d) }, g d) := by
  refine ⟨fun d => rfl, fun d => ?_, fun d => rfl, fun d => rfl, fun d => rfl, ?_⟩
  · unfold DataExfiltrationWorkflow.generate_workflow
    cases truthyStr d.user_account <;> cases truthyList d.compliance_implications <;> rfl
  · intro e iid ityp d g hg
    unfold WorkflowEngine.create_workflow
    rw [hg]

/-- C1, witness for the amended theorem at the registered ransomware
generator and a concrete incident. -/
theorem c1_witness :
    WorkflowEngine.init.create_workflow "INC-001" "malware_outbreak" sampleRansomwareData =
      Except.ok
        ({ WorkflowEngine.init with
           active_workflows :=
             dictSet [] "INC-001" (RansomwareWorkflow.generate_workflow sampleRansomwareData) },
         RansomwareWorkflow.generate_workflow sampleRansomwareData) :=
  c1_generators_acyclic_creation_unchecked.2.2.2.2.2 WorkflowEngine.init "INC-001"
    "malware_outbreak" sampleRansomwareData RansomwareWorkflow.generate_workflow rfl

/-- C2, counterexample: nothing of the claimed policy happens.  On a
concrete two-step plan `_execute_response_plan` raises before its first
recording iteration, so the incident record keeps its `active` status
(nothing is marked escalated), no step reaches a `completed`, `failed`
or `skipped` status and no row is stored; and on the engine side, after
the critical step `RANSOM_001` fails, its dependent `RANSOM_004` stays
`pending` — it is never marked `skipped` — while the ready set only
contains the independent siblings. -/
theorem c2_no_escalation_no_skip :
    executeResponsePlan sampleDB "INC-1" [sampleIsolateStep, sampleNotifyStep]
      = Except.error "TypeError: unhashable type: ResponseStep"
  ∧ sampleIsolateStep.status = "pending"
  ∧ sampleNotifyStep.status = "pending"
  ∧ sampleDB.incidents = [sampleIncidentRow]
  ∧ sampleIncidentRow.status = "active"
  ∧ sampleDB.response_actions = []
  ∧ statusOf (workflowOf engineAfterFail "INC-001") "RANSOM_001"
      = Option.some WorkflowStatus.failed
  ∧ ((workflowOf engineAfterFail "INC-001").find?
      (fun s => s.step_id == "RANSOM_001")).map (fun s => s.critical) = Option.some true
  ∧ ((workflowOf engineAfterFail "INC-001").find?
      (fun s => s.step_id == "RANSOM_004")).map (fun s => s.prerequisites)
      = Option.some ["RANSOM_001"]
  ∧ statusOf (workflowOf engineAfterFail "INC-001") "RANSOM_004"
      = Option.some WorkflowStatus.pending
  ∧ ((engineAfterFail.get_next_steps "INC-001").map (fun s => s.step_id))
      = ["RANSOM_002", "RANSOM_003", "RANSOM_007"] :=
  ⟨rfl, rfl, rfl, rfl, rfl, rfl, rfl, rfl, rfl, rfl, rfl⟩

/-- C2, amended: no critical-failure policy exists.  For every non-empty
plan — and every generated plan is non-empty, the notify step being
appended unconditionally — `_execute_response_plan` raises before
recording anything, so the incident status is never escalated, no step
status and no row is ever written by it, and no step is ever marked
`skipped`; on the engine side a step only becomes ready once every
prerequisite is completed, so a step depending on a failed step is
never dispatched and simply remains pending. -/
theorem c2_crash_before_recording (db : ResponseDB) (iid : String)
    (steps : List ResponseStep) (incident : IncidentData) :
    (steps.isEmpty = false →
       executeResponsePlan db iid steps
         = Except.error "TypeError: unhashable type: ResponseStep")
  ∧ executeResponsePlan db iid [] = Except.ok (db, [])
  ∧ (generate_response_plan incident).isEmpty = false
  ∧ (∀ wf : List WorkflowStep, ∀ s ∈ nextStepsOf wf,
       ∀ p ∈ s.prerequisites, prereqCompleted wf p = true) := by
  refine ⟨?_, rfl, ?_, ?_⟩
  · intro h
    unfold executeResponsePlan
    rw [h]
    rfl
  · unfold generate_response_plan
    exact isEmpty_append_singleton _ _
  · intro wf s hs p hp
    unfold nextStepsOf at hs
    rw [List.mem_filter, Bool.and_eq_true, List.all_eq_true] at hs
    exact hs.2.2 p hp

/-- C2, witness for the amended theorem: the concrete two-step plan is
non-empty and its execution indeed propagates the exception. -/
theorem c2_witness :
    ([sampleIsolateStep, sampleNotifyStep] : List ResponseStep).isEmpty = false
  ∧ executeResponsePlan sampleDB "INC-1" [sampleIsolateStep, sampleNotifyStep]
      = Except.error "TypeError: unhashable type: ResponseStep" :=
  ⟨rfl,
   (c2_crash_before_recording sampleDB "INC-1" [sampleIsolateStep, sampleNotifyStep]
     { incident_id := "INC-1", incident_type := IncidentType.ransomware,
       severity := IncidentSeverity.high }).1 rfl⟩

/-- C3: `get_next_steps` returns exactly the pending steps all of whose
listed prerequisite steps are completed, for workflows with unique step
ids. -/
theorem c3_get_next_steps_characterization (wf : List WorkflowStep)
    (hids : (wf.map (fun s => s.step_id)).Nodup) (s : WorkflowStep) :
    s ∈ nextStepsOf wf ↔
      s ∈ wf ∧ s.status = WorkflowStatus.pending
        ∧ ∀ p ∈ s.prerequisites,
            ∃ t ∈ wf, t.step_id = p ∧ t.status = WorkflowStatus.completed := by
  unfold nextStepsOf
  rw [List.mem_filter, Bool.and_eq_true, List.all_eq_true]
  constructor
  · intro ⟨hm, hst, hall⟩
    refine ⟨hm, by rwa [beq_iff_eq] at hst, ?_⟩
    intro p hp
    exact (prereqCompleted_iff wf hids p).mp (hall p hp)
  · intro ⟨hm, hst, hall⟩
    refine ⟨hm, by rwa [beq_iff_eq], ?_⟩
    intro p hp
    exact (prereqCompleted_iff wf hids p).mpr (hall p hp)

/-- C3, witness: in the freshly generated sample workflow the first
containment step is ready. -/
theorem c3_witness :
    ((sampleWorkflow.map (fun s => s.step_id)).Nodup)
  ∧ ransomHead ∈ nextStepsOf sampleWorkflow := by
  have hnd : (sampleWorkflow.map (fun s => s.step_id)).Nodup := by decide
  refine ⟨hnd, ?_⟩
  refine (c3_get_next_steps_characterization sampleWorkflow hnd ransomHead).mpr ?_
  refine ⟨List.get?_mem (show sampleWorkflow.get? 0 = Option.some ransomHead from rfl),
    rfl, ?_⟩
  intro p hp
  exact absurd hp (List.not_mem_nil p)

/-- C4, counterexample: the engine does not prevent a step from starting
early — `update_step_status` happily marks `RANSOM_004` `in_progress`
while its prerequisite `RANSOM_001` is still `pending`. -/
theorem c4_step_starts_before_prereq_terminal :
    engineStep4Started.1 = true
  ∧ statusOf (workflowOf engineStep4Started.2 "INC-001") "RANSOM_004"
      = Option.some WorkflowStatus.in_progress
  ∧ statusOf (workflowOf engineStep4Started.2 "INC-001") "RANSOM_001"
      = Option.some WorkflowStatus.pending
  ∧ ((workflowOf engineStep4Started.2 "INC-001").find?
      (fun s => s.step_id == "RANSOM_004")).map (fun s => s.prerequisites)
      = Option.some ["RANSOM_001"] :=
  ⟨rfl, rfl, rfl, rfl⟩

/-- C4, amended: the ordering holds only through the scheduler query —
every step returned by `get_next_steps` is pending and each of its
prerequisites resolves to a completed step; the engine itself performs
no check when a status is set. -/
theorem c4_ready_steps_have_completed_prereqs (wf : List WorkflowStep) (s : WorkflowStep)
    (hs : s ∈ nextStepsOf wf) :
    s.status = WorkflowStatus.pending
  ∧ ∀ p ∈ s.prerequisites,
      ∃ t, wf.find? (fun u => u.step_id == p) = Option.some t
        ∧ t.status = WorkflowStatus.completed := by
  unfold nextStepsOf at hs
  rw [List.mem_filter, Bool.and_eq_true, List.all_eq_true] at hs
  obtain ⟨-, hst, hall⟩ := hs
  refine ⟨by rwa [beq_iff_eq] at hst, ?_⟩
  intro p hp
  have hpc := hall p hp
  unfold prereqCompleted at hpc
  split at hpc
  · exact absurd hpc Bool.false_ne_true
  · rename_i t hf
    exact ⟨t, hf, by rwa [beq_iff_eq] at hpc⟩

/-- C4, witness for the amended theorem: once `RANSOM_001` completes,
`RANSOM_004` is ready and its prerequisite resolves to the completed
step. -/
theorem c4_witness :
    ransom004After ∈ nextStepsOf wfAfter001Completed
  ∧ (ransom004After.status = WorkflowStatus.pending
     ∧ ∀ p ∈ ransom004After.prerequisites,
         ∃ t, wfAfter001Completed.find? (fun u => u.step_id == p) = Option.some t
           ∧ t.status = WorkflowStatus.completed) := by
  have hm : ransom004After ∈ nextStepsOf wfAfter001Completed :=
    List.get?_mem
      (show (nextStepsOf wfAfter001Completed).get? 2 = Option.some ransom004After from rfl)
  exact ⟨hm, c4_ready_steps_have_completed_prereqs wfAfter001Completed ransom004After hm⟩

/-- C5: classification is total and decided by the ordered predicate
cascade — ransomware markers first, then exfiltration, credential, DDoS
and supply-chain key tests, first match winning, with the residual
insider-threat type returned exactly when no predicate matches. -/
theorem c5_classification_ordered_total (ind : RawIndicators) :
    (determine_incident_type ind = IncidentType.ransomware ↔ ransomwareMarkers ind = true)
  ∧ (determine_incident_type ind = IncidentType.data_exfiltration ↔
      (ransomwareMarkers ind = false ∧ exfiltrationMarkers ind = true))
  ∧ (determine_incident_type ind = IncidentType.credential_compromise ↔
      (ransomwareMarkers ind = false ∧ exfiltrationMarkers ind = false
        ∧ credentialMarkers ind = true))
  ∧ (determine_incident_type ind = IncidentType.ddos_attack ↔
      (ransomwareMarkers ind = false ∧ exfiltrationMarkers ind = false
        ∧ credentialMarkers ind = false ∧ ddosMarkers ind = true))
  ∧ (determine_incident_type ind = IncidentType.supply_chain ↔
      (ransomwareMarkers ind = false ∧ exfiltrationMarkers ind = false
        ∧ credentialMarkers ind = false ∧ ddosMarkers ind = false
        ∧ supplyChainMarkers ind = true))
  ∧ (determine_incident_type ind = IncidentType.insider_threat ↔
      (ransomwareMarkers ind = false ∧ exfiltrationMarkers ind = false
        ∧ credentialMarkers ind = false ∧ ddosMarkers ind = false
        ∧ supplyChainMarkers ind = false)) := by
  unfold determine_incident_type
  cases h1 : ransomwareMarkers ind <;> cases h2 : exfiltrationMarkers ind <;>
    cases h3 : credentialMarkers ind <;> cases h4 : ddosMarkers ind <;>
      cases h5 : supplyChainMarkers ind <;> simp

/-- C6, counterexample: the workflow generators do not append a
notify-stakeholders step — no step of the ransomware workflow (or of
the insider-threat workflow) has a notification action type; the
ransomware workflow ends with `system_restore`. -/
theorem c6_workflow_generators_lack_notify_step :
    ((RansomwareWorkflow.generate_workflow sampleRansomwareData).map
      (fun s => s.action_type))
      = ["isolate_systems", "block_ips", "disable_services", "collect_evidence",
         "malware_analysis", "decryption_research", "backup_verification", "system_restore"]
  ∧ ((RansomwareWorkflow.generate_workflow sampleRansomwareData).all
      (fun s => !(s.action_type == "notify_stakeholders"))) = true
  ∧ ((InsiderThreatWorkflow.generate_workflow {}).all
      (fun s => !(s.action_type == "notify_stakeholders"))) = true :=
  ⟨rfl, rfl, rfl⟩

/-- C6, amended: only `_generate_response_plan` appends a terminal
notify-stakeholders step, unconditionally for every incident (and its
`ResponseStep` type has no prerequisites at all); none of the five
workflow generators ever produces a step with that action type. -/
theorem c6_only_response_plan_appends_notify (incident : IncidentData) :
    (generate_response_plan incident).getLast? =
      Option.some
        { action := ResponseAction.notify_stakeholders, target := "security_team",
          parameters := [("incident_id", PyVal.str incident.incident_id),
                         ("severity", PyVal.str incident.severity.value)] }
  ∧ (∀ d, ((RansomwareWorkflow.generate_workflow d).all
      (fun s => !(s.action_type == "notify_stakeholders"))) = true)
  ∧ (∀ d, ((DataExfiltrationWorkflow.generate_workflow d).all
      (fun s => !(s.action_type == "notify_stakeholders"))) = true)
  ∧ (∀ d, ((CredentialCompromiseWorkflow.generate_workflow d).all
      (fun s => !(s.action_type == "notify_stakeholders"))) = true)
  ∧ (∀ d, ((DDoSWorkflow.generate_workflow d).all
      (fun s => !(s.action_type == "notify_stakeholders"))) = true)
  ∧ (∀ d, ((InsiderThreatWorkflow.generate_workflow d).all
      (fun s => !(s.action_type == "notify_stakeholders"))) = true) := by
  refine ⟨?_, fun d => rfl, fun d => ?_, fun d => rfl, fun d => rfl, fun d => rfl⟩
  · unfold generate_response_plan
    exact List.getLast?_concat _
  · unfold DataExfiltrationWorkflow.generate_workflow
    cases truthyStr d.user_account <;> cases truthyList d.compliance_implications <;> rfl

/-- C7, counterexample: storing the same step for the same incident
twice leaves two rows in `response_actions` — `_store_response_action`
is a plain autoincrement `INSERT`, not an upsert, so the store after two
saves differs from the store after one and holds duplicate records for
the same incident and step. -/
theorem c7_store_is_not_idempotent :
    dbOnce.response_actions.length = 1
  ∧ dbTwice.response_actions.length = 2
  ∧ (dbTwice.response_actions.map (fun r => (r.incident_id, r.action_type, r.target)))
      = [("INC-1", "notify_stakeholders", "security_team"),
         ("INC-1", "notify_stakeholders", "security_team")]
  ∧ (dbTwice.response_actions.map (fun r => r.action_id)) = [1, 2] :=
  ⟨rfl, rfl, rfl, rfl⟩

/-- C7, amended: `_store_response_action` is append-only — every call
adds one fresh row under the next autoincrement id and leaves the
existing rows and the `incidents` table unchanged, so re-saving grows
the table instead of overwriting. -/
theorem c7_store_appends_new_row (db : ResponseDB) (iid : String) (step : ResponseStep) :
    (storeResponseAction db iid step).response_actions
      = db.response_actions
          ++ [{ action_id := db.next_action_id, incident_id := iid,
                action_type := step.action.value, target := step.target,
                parameters := step.parameters, status := step.status,
                execution_time := step.execution_time, result := step.result }]
  ∧ (storeResponseAction db iid step).next_action_id = db.next_action_id + 1
  ∧ (storeResponseAction db iid step).incidents = db.incidents
  ∧ (storeResponseAction (storeResponseAction db iid step) iid step).response_actions.length
      = db.response_actions.length + 2 := by
  refine ⟨rfl, rfl, rfl, ?_⟩
  show (db.response_actions ++ [_] ++ [_]).length = db.response_actions.length + 2
  rw [List.length_append, List.length_append]
  rfl

/-- C8, counterexample: step statuses are not monotonic — after
`RANSOM_001` reaches the terminal status `completed`, a further
`update_step_status` call moves it back to `pending` and reports
success. -/
theorem c8_completed_step_reenters_pending :
    statusOf (workflowOf engineDone001 "INC-001") "RANSOM_001"
      = Option.some WorkflowStatus.completed
  ∧ reopenResult.1 = true
  ∧ statusOf (workflowOf reopenResult.2 "INC-001") "RANSOM_001"
      = Option.some WorkflowStatus.pending :=
  ⟨rfl, rfl, rfl⟩

/-- C8, amended: `update_step_status` enforces no transition discipline:
whenever the incident and step exist it overwrites the step's status
with whatever value is requested, regardless of the previous status. -/
theorem c8_update_ignores_previous_status (e : WorkflowEngine) (iid sid : String)
    (st : WorkflowStatus) (r : Option String) (now : Nat) (wf : List WorkflowStep)
    (hwf : dictGet e.active_workflows iid = Option.some wf)
    (hfind : (wf.find? (fun s => s.step_id == sid)).isSome = true) :
    (e.update_step_status iid sid st r now).1 = true
  ∧ statusOf (workflowOf (e.update_step_status iid sid st r now).2 iid) sid
      = Option.some st := by
  obtain ⟨s0, hs0⟩ := Option.isSome_iff_exists.mp hfind
  rw [update_step_status_found e iid sid st r now wf s0 hwf hs0]
  refine ⟨rfl, ?_⟩
  show statusOf
      ((dictGet (dictSet e.active_workflows iid (updateFirstStep sid st r now wf)) iid).getD [])
      sid = Option.some st
  rw [dictGet_dictSet_self]
  exact statusOf_updateFirstStep sid st r now wf hfind

/-- C8, witness for the amended theorem: skipping a pending step in the
sample workflow succeeds and records the requested status. -/
theorem c8_witness :
    dictGet engineAfterCreate.active_workflows "INC-001" = Option.some sampleWorkflow
  ∧ ((sampleWorkflow.find? (fun s => s.step_id == "RANSOM_001")).isSome = true)
  ∧ ((engineAfterCreate.update_step_status "INC-001" "RANSOM_001" WorkflowStatus.skipped
        Option.none 6).1 = true
     ∧ statusOf
         (workflowOf
           (engineAfterCreate.update_step_status "INC-001" "RANSOM_001"
             WorkflowStatus.skipped Option.none 6).2 "INC-001") "RANSOM_001"
         = Option.some WorkflowStatus.skipped) :=
  ⟨rfl, rfl,
    c8_update_ignores_previous_status engineAfterCreate "INC-001" "RANSOM_001"
      WorkflowStatus.skipped Option.none 6 sampleWorkflow rfl rfl⟩

/-- C9, counterexample: the ready-steps loop does not reach an
all-terminal configuration on the acyclic sample workflow once
`RANSOM_001` fails — it reaches a fixpoint in which the ready set is
empty while the dependent steps are still `pending` (never `skipped`). -/
theorem c9_loop_stalls_on_failure :
    driverRound failFirstOracle 1 stalledWorkflow = stalledWorkflow
  ∧ nextStepsOf stalledWorkflow = []
  ∧ statusOf stalledWorkflow "RANSOM_004" = Option.some WorkflowStatus.pending
  ∧ statusOf stalledWorkflow "RANSOM_005" = Option.some WorkflowStatus.pending
  ∧ statusOf stalledWorkflow "RANSOM_006" = Option.some WorkflowStatus.pending
  ∧ allTerminal stalledWorkflow = false
  ∧ acyclicSteps sampleWorkflow = true :=
  ⟨rfl, rfl, rfl, rfl, rfl, rfl, rfl⟩

/-- C9, amended: with failures the loop can stall forever — every
further round leaves the stalled configuration unchanged, with
`RANSOM_001` failed, its dependents pending and the workflow not
terminal — while under an all-success oracle the same acyclic workflow
does reach the all-completed configuration in four rounds. -/
theorem c9_termination_only_without_failures :
    (∀ n, driverRun failFirstOracle 1 n stalledWorkflow = stalledWorkflow)
  ∧ statusOf stalledWorkflow "RANSOM_001" = Option.some WorkflowStatus.failed
  ∧ allTerminal stalledWorkflow = false
  ∧ allTerminal (driverRun allCompleteOracle 1 4 sampleWorkflow) = true := by
  refine ⟨?_, rfl, rfl, rfl⟩
  intro n
  induction n with
  | zero => rfl
  | succ n ih =>
      show driverRun failFirstOracle 1 n (driverRound failFirstOracle 1 stalledWorkflow)
        = stalledWorkflow
      rw [show driverRound failFirstOracle 1 stalledWorkflow = stalledWorkflow from rfl]
      exact ih

/-- C10: `update_step_status` returns `False` and changes nothing when
the incident or the step is unknown; on success it updates exactly the
first step carrying the id — setting its status and result, and its
`execution_time` only for `completed` or `failed` — and leaves every
other step and every other incident's workflow untouched. -/
theorem c10_update_step_status_frame (e : WorkflowEngine) (iid sid : String)
    (st : WorkflowStatus) (r : Option String) (now : Nat) :
    (dictGet e.active_workflows iid = Option.none →
       e.update_step_status iid sid st r now = (false, e))
  ∧ (∀ wf, dictGet e.active_workflows iid = Option.some wf →
       wf.find? (fun s => s.step_id == sid) = Option.none →
       e.update_step_status iid sid st r now = (false, e))
  ∧ (∀ wf s0, dictGet e.active_workflows iid = Option.some wf →
       wf.find? (fun s => s.step_id == sid) = Option.some s0 →
       (e.update_step_status iid sid st r now).1 = true
     ∧ (∀ iid2, iid2 ≠ iid →
          dictGet (e.update_step_status iid sid st r now).2.active_workflows iid2
            = dictGet e.active_workflows iid2)
     ∧ ∃ i, wf.get? i = Option.some s0
         ∧ (∀ j sj, j < i → wf.get? j = Option.some sj → (sj.step_id == sid) = false)
         ∧ (s0.step_id == sid) = true
         ∧ dictGet (e.update_step_status iid sid st r now).2.active_workflows iid
             = Option.some (wf.set i
                 { s0 with
                   status := st,
                   result := r,
                   execution_time :=
                     if st = WorkflowStatus.completed ∨ st = WorkflowStatus.failed
                     then Option.some now else s0.execution_time })) := by
  refine ⟨?_, ?_, ?_⟩
  · intro h
    exact update_step_status_no_incident e iid sid st r now h
  · intro wf h hf
    exact update_step_status_no_step e iid sid st r now wf h hf
  · intro wf s0 h hf
    rw [update_step_status_found e iid sid st r now wf s0 h hf]
    obtain ⟨i, hget, hfirst, hid, heq⟩ := updateFirstStep_spec sid st r now wf s0 hf
    refine ⟨rfl, ?_, i, hget, hfirst, hid, ?_⟩
    · intro iid2 hne
      exact dictGet_dictSet_ne e.active_workflows iid iid2
        (updateFirstStep sid st r now wf) hne
    · show dictGet (dictSet e.active_workflows iid (updateFirstStep sid st r now wf)) iid
        = _
      rw [dictGet_dictSet_self, heq, applyStatusUpdate_eq]

/-- C10, witness: an unknown incident id is rejected without any state
change, and a transition of the pending `RANSOM_001` to `skipped`
succeeds. -/
theorem c10_witness :
    WorkflowEngine.init.update_step_status "INC-404" "RANSOM_001" WorkflowStatus.completed
        Option.none 0 = (false, WorkflowEngine.init)
  ∧ (engineAfterCreate.update_step_status "INC-001" "RANSOM_404" WorkflowStatus.skipped
        Option.none 0) = (false, engineAfterCreate) :=
  ⟨(c10_update_step_status_frame WorkflowEngine.init "INC-404" "RANSOM_001"
      WorkflowStatus.completed Option.none 0).1 rfl,
   (c10_update_step_status_frame engineAfterCreate "INC-001" "RANSOM_404"
      WorkflowStatus.skipped Option.none 0).2.1 sampleWorkflow rfl rfl⟩

end IncidentResponse
